import Mathlib

/-!
Verification of the resilience and pipeline-orchestration layer of the
Chat-remix RAG backend: the retry executor and circuit breaker
(`src/lib/retry.ts`, bundled in `src/lib/config.test.ts`), the chat query
pipeline (`src/services/chat.service.ts`), and the document ingestion
pipeline (`src/services/document.service.ts`).

Modelling conventions:
- TypeScript numbers used as timestamps/counters become `Nat`;
  similarity scores and backoff delays (where fractional factors matter)
  become `ℚ`.
- JavaScript strings are modelled by Lean `String` (a list of characters);
  `String.prototype.trim` is modelled structurally by `jsTrim` below, and
  `.length` by `String.length` (code points instead of UTF-16 units, which
  agree on all inputs considered here).
- `async` functions that can throw become functions into `Except AppError`.
- External collaborators (Prisma metadata store, embedding provider,
  vector store, LLM) are parameters: a structure of functions that each
  return `Except AppError` results.  Metadata-store status updates are
  modelled as pure state updates (the claims under study do not concern
  metadata-store outages).
-/

namespace ChatRemix

set_option maxRecDepth 4000

/-- The error hierarchy of `src/lib/errors.ts`: `ValidationError`,
`NotFoundError`, `DatabaseError`, `VectorStoreError`, `LLMError`,
`ServiceUnavailableError`, plus `generic` for a plain JavaScript `Error`. -/
inductive AppError where
  | validation (msg : String)
  | notFound (msg : String)
  | database (msg : String)
  | vectorStore (msg : String)
  | llm (msg : String)
  | serviceUnavailable (msg : String)
  | generic (msg : String)
deriving Repr, DecidableEq

/-- The `.message` property of an error. -/
def AppError.message : AppError → String
  | .validation m => m
  | .notFound m => m
  | .database m => m
  | .vectorStore m => m
  | .llm m => m
  | .serviceUnavailable m => m
  | .generic m => m

/-- `shouldRetry` from the retry module: validation and not-found errors are
never retried; everything else is. -/
def shouldRetry : AppError → Bool
  | .validation _ => false
  | .notFound _ => false
  | _ => true

/-- `RetryConfig` from the retry module.  Delays are in milliseconds; the
backoff factor may be fractional, so delays are rationals. -/
structure RetryConfig where
  maxAttempts : Nat
  baseDelay : ℚ
  maxDelay : ℚ
  backoffFactor : ℚ
deriving Repr, DecidableEq

/-- `DEFAULT_RETRY_CONFIG`: 3 attempts, 1s base delay, 10s cap, factor 2. -/
def DEFAULT_RETRY_CONFIG : RetryConfig :=
  { maxAttempts := 3, baseDelay := 1000, maxDelay := 10000, backoffFactor := 2 }

/-- `calculateDelay`: `min(baseDelay * backoffFactor^(attempt-1), maxDelay)`. -/
def calculateDelay (attempt : Nat) (config : RetryConfig) : ℚ :=
  min (config.baseDelay * config.backoffFactor ^ (attempt - 1)) config.maxDelay

/-- The `for` loop of `withRetry`, starting at iteration `attempt`.
The operation is modelled as a function from the (1-based) attempt number to
that attempt's outcome.  Besides the result, the model returns the number of
attempts actually made from this iteration on, and the list of backoff delays
slept between attempts.  When the loop bound is already exhausted
(`maxAttempts < attempt`) the source falls through to `throw lastError` with
`lastError` undefined; that degenerate exit is modelled as a generic error
with zero attempts made. -/
def withRetryLoop (fn : Nat → Except AppError α) (cfg : RetryConfig)
    (attempt : Nat) : Except AppError α × Nat × List ℚ :=
  if _h1 : cfg.maxAttempts < attempt then
    (.error (.generic "undefined"), 0, [])
  else
    match fn attempt with
    | .ok v => (.ok v, 1, [])
    | .error e =>
      if h2 : shouldRetry e = false then
        (.error e, 1, [])
      else if h3 : attempt = cfg.maxAttempts then
        (.error e, 1, [])
      else
        let r := withRetryLoop fn cfg (attempt + 1)
        (r.1, r.2.1 + 1, calculateDelay attempt cfg :: r.2.2)
termination_by cfg.maxAttempts - attempt
decreasing_by omega

/-- `withRetry`: run the operation with up to `cfg.maxAttempts` attempts,
sleeping an exponential backoff between attempts. -/
def withRetry (fn : Nat → Except AppError α) (cfg : RetryConfig) :
    Except AppError α × Nat × List ℚ :=
  withRetryLoop fn cfg 1

/-- Claim C9: if the first attempt of an operation raises a Validation or
NotFound error, `withRetry` makes exactly one attempt, re-throws that very
error, and sleeps no backoff delay, for every retry configuration with at
least one permitted attempt. -/
theorem withRetry_nonretryable_single_attempt
    (fn : Nat → Except AppError α) (cfg : RetryConfig) (e : AppError)
    (hmax : 1 ≤ cfg.maxAttempts) (hfn : fn 1 = .error e)
    (he : (∃ m, e = .validation m) ∨ (∃ m, e = .notFound m)) :
    withRetry fn cfg = (.error e, 1, []) := by
  have hret : shouldRetry e = false := by
    rcases he with ⟨m, rfl⟩ | ⟨m, rfl⟩ <;> rfl
  rw [withRetry, withRetryLoop]
  rw [dif_neg (by omega)]
  rw [hfn]
  simp [hret]

/-- Witness for C9 at a concrete operation that always raises a validation
error, under the default retry configuration. -/
theorem withRetry_nonretryable_single_attempt_witness :
    1 ≤ DEFAULT_RETRY_CONFIG.maxAttempts ∧
    withRetry (fun _ => (.error (.validation "bad input") : Except AppError Nat))
      DEFAULT_RETRY_CONFIG = (.error (.validation "bad input"), 1, []) :=
  ⟨by decide,
   withRetry_nonretryable_single_attempt _ _ _ (by decide) rfl
     (Or.inl ⟨"bad input", rfl⟩)⟩

/-- Circuit breaker states (`CircuitState` in the source: CLOSED, OPEN,
HALF_OPEN).  `open` is a Lean keyword, hence the primed constructor name. -/
inductive CircuitState where
  | closed
  | open'
  | halfOpen
deriving Repr, DecidableEq

/-- `CircuitBreakerConfig`: failure threshold, reset timeout and monitoring
period (milliseconds). -/
structure CircuitBreakerConfig where
  failureThreshold : Nat
  resetTimeout : Nat
  monitoringPeriod : Nat
deriving Repr, DecidableEq

/-- `DEFAULT_CIRCUIT_CONFIG`: threshold 5, reset timeout 60s. -/
def DEFAULT_CIRCUIT_CONFIG : CircuitBreakerConfig :=
  { failureThreshold := 5, resetTimeout := 60000, monitoringPeriod := 60000 }

/-- `CircuitStats`. -/
structure CircuitStats where
  failures : Nat
  successes : Nat
  lastFailureTime : Nat
  lastSuccessTime : Nat
deriving Repr, DecidableEq

/-- The mutable fields of a `CircuitBreaker` instance together with its
immutable configuration. -/
structure CircuitBreaker where
  state : CircuitState
  stats : CircuitStats
  nextAttemptTime : Nat
  config : CircuitBreakerConfig
deriving Repr, DecidableEq

/-- A freshly constructed breaker: CLOSED, zero counts,
`lastSuccessTime = Date.now()` at construction time `now`. -/
def mkCircuitBreaker (config : CircuitBreakerConfig) (now : Nat) : CircuitBreaker :=
  { state := .closed
    stats := { failures := 0, successes := 0, lastFailureTime := 0, lastSuccessTime := now }
    nextAttemptTime := 0
    config := config }

/-- `CircuitBreaker.onSuccess`, with `Date.now()` passed in as `now`:
increment the success count; a HALF_OPEN breaker closes and zeroes its
failure count. -/
def onSuccess (cb : CircuitBreaker) (now : Nat) : CircuitBreaker :=
  let stats := { cb.stats with successes := cb.stats.successes + 1, lastSuccessTime := now }
  if cb.state = .halfOpen then
    { cb with state := .closed, stats := { stats with failures := 0 } }
  else
    { cb with stats := stats }

/-- `CircuitBreaker.onFailure`: increment the failure count; a HALF_OPEN
breaker reopens, a CLOSED breaker whose failure count reaches the threshold
opens; in both cases `nextAttemptTime := now + resetTimeout`. -/
def onFailure (cb : CircuitBreaker) (now : Nat) : CircuitBreaker :=
  if cb.state = .halfOpen then
    { cb with
        state := .open'
        stats := { cb.stats with failures := cb.stats.failures + 1, lastFailureTime := now }
        nextAttemptTime := now + cb.config.resetTimeout }
  else if cb.state = .closed ∧ cb.config.failureThreshold ≤ cb.stats.failures + 1 then
    { cb with
        state := .open'
        stats := { cb.stats with failures := cb.stats.failures + 1, lastFailureTime := now }
        nextAttemptTime := now + cb.config.resetTimeout }
  else
    { cb with stats := { cb.stats with failures := cb.stats.failures + 1, lastFailureTime := now } }

/-- The rejection message thrown by `execute` while the circuit is open. -/
def openMsg : String := "Circuit breaker is OPEN - service unavailable"

/-- `CircuitBreaker.execute`, with `Date.now()` passed in as `now` and the
wrapped operation as a thunk.  Returns the call result, the updated breaker,
and whether the wrapped operation was invoked at all. -/
def execute (cb : CircuitBreaker) (now : Nat) (fn : Unit → Except AppError α) :
    Except AppError α × CircuitBreaker × Bool :=
  if cb.state = .open' ∧ now < cb.nextAttemptTime then
    (.error (.generic openMsg), cb, false)
  else
    let cb1 := if cb.state = .open' then { cb with state := .halfOpen } else cb
    match fn () with
    | .ok v => (.ok v, onSuccess cb1 now, true)
    | .error e => (.error e, onFailure cb1 now, true)

/-- `withRetryAndCircuitBreaker`: the whole retry sequence runs as a single
trial inside `CircuitBreaker.execute`. -/
def withRetryAndCircuitBreaker (fn : Nat → Except AppError α)
    (cb : CircuitBreaker) (now : Nat) (cfg : RetryConfig) :
    Except AppError α × CircuitBreaker × Bool :=
  execute cb now (fun _ => (withRetry fn cfg).1)

/-- `k` consecutive recorded failures, the `i`-th failure happening at time
`times i`. -/
def applyFailures (cb : CircuitBreaker) (times : Nat → Nat) : Nat → CircuitBreaker
  | 0 => cb
  | k + 1 => onFailure (applyFailures cb times k) (times (k + 1))

/-- `onFailure` always increments the failure count by exactly one and
preserves the configuration. -/
theorem onFailure_failures (cb : CircuitBreaker) (now : Nat) :
    (onFailure cb now).stats.failures = cb.stats.failures + 1 ∧
    (onFailure cb now).config = cb.config := by
  unfold onFailure
  split
  · exact ⟨rfl, rfl⟩
  · split
    · exact ⟨rfl, rfl⟩
    · exact ⟨rfl, rfl⟩

/-- `onSuccess` never increases the failure count and preserves the
configuration. -/
theorem onSuccess_failures_le (cb : CircuitBreaker) (now : Nat) :
    (onSuccess cb now).stats.failures ≤ cb.stats.failures ∧
    (onSuccess cb now).config = cb.config := by
  unfold onSuccess
  split
  · exact ⟨Nat.zero_le _, rfl⟩
  · exact ⟨Nat.le_refl _, rfl⟩

/-- While strictly below the threshold, consecutive failures leave a closed
breaker closed, with the failure count tracking the number of failures. -/
theorem applyFailures_closed (cb : CircuitBreaker) (times : Nat → Nat)
    (hs : cb.state = .closed) (h0 : cb.stats.failures = 0) :
    ∀ k, k < cb.config.failureThreshold →
      (applyFailures cb times k).state = .closed ∧
      (applyFailures cb times k).stats.failures = k ∧
      (applyFailures cb times k).config = cb.config := by
  intro k
  induction k with
  | zero => exact fun _ => ⟨hs, h0, rfl⟩
  | succ m ih =>
    intro hlt
    obtain ⟨ihs, ihf, ihc⟩ := ih (Nat.lt_of_succ_lt hlt)
    have hfail : (applyFailures cb times (m + 1)) =
        onFailure (applyFailures cb times m) (times (m + 1)) := rfl
    rw [hfail]
    unfold onFailure
    rw [if_neg (by rw [ihs]; intro h; cases h)]
    rw [if_neg (by
      rw [ihs, ihf, ihc]
      intro h
      exact absurd h.2 (by omega))]
    exact ⟨ihs, by simp [ihf], ihc⟩

/-- Claim C7: starting from a closed breaker with zero failure count, every
run of fewer than `failureThreshold` recorded failures leaves the breaker
closed with the failure count equal to the number of failures; the failure
that brings the count to exactly `failureThreshold` opens the circuit and
sets `nextAttemptTime` to that failure's time plus `resetTimeout`. -/
theorem circuitBreaker_opens_at_threshold (cb : CircuitBreaker)
    (times : Nat → Nat) (hs : cb.state = .closed) (h0 : cb.stats.failures = 0) :
    (∀ k, k < cb.config.failureThreshold →
      (applyFailures cb times k).state = .closed ∧
      (applyFailures cb times k).stats.failures = k) ∧
    (cb.config.failureThreshold ≠ 0 →
      (applyFailures cb times cb.config.failureThreshold).state = .open' ∧
      (applyFailures cb times cb.config.failureThreshold).stats.failures
        = cb.config.failureThreshold ∧
      (applyFailures cb times cb.config.failureThreshold).nextAttemptTime
        = times cb.config.failureThreshold + cb.config.resetTimeout) := by
  constructor
  · intro k hk
    exact ⟨(applyFailures_closed cb times hs h0 k hk).1,
           (applyFailures_closed cb times hs h0 k hk).2.1⟩
  · intro hth
    obtain ⟨m, hm⟩ := Nat.exists_eq_succ_of_ne_zero hth
    obtain ⟨ihs, ihf, ihc⟩ :=
      applyFailures_closed cb times hs h0 m (by omega)
    have hfail : (applyFailures cb times cb.config.failureThreshold) =
        onFailure (applyFailures cb times m) (times (m + 1)) := by
      rw [hm]; rfl
    rw [hfail]
    unfold onFailure
    rw [if_neg (by rw [ihs]; intro h; cases h)]
    rw [if_pos (by rw [ihs, ihf, ihc]; exact ⟨rfl, by omega⟩)]
    refine ⟨rfl, by simp [ihf, hm], ?_⟩
    rw [ihc, hm]

/-- Witness for C7: a fresh breaker under the default configuration
(threshold 5), failures at times 10, 20, 30, ... -/
theorem circuitBreaker_opens_at_threshold_witness :
    (mkCircuitBreaker DEFAULT_CIRCUIT_CONFIG 0).state = .closed ∧
    ((∀ k, k < (mkCircuitBreaker DEFAULT_CIRCUIT_CONFIG 0).config.failureThreshold →
      (applyFailures (mkCircuitBreaker DEFAULT_CIRCUIT_CONFIG 0) (fun i => i * 10) k).state = .closed ∧
      (applyFailures (mkCircuitBreaker DEFAULT_CIRCUIT_CONFIG 0) (fun i => i * 10) k).stats.failures = k) ∧
    ((mkCircuitBreaker DEFAULT_CIRCUIT_CONFIG 0).config.failureThreshold ≠ 0 →
      (applyFailures (mkCircuitBreaker DEFAULT_CIRCUIT_CONFIG 0) (fun i => i * 10)
        (mkCircuitBreaker DEFAULT_CIRCUIT_CONFIG 0).config.failureThreshold).state = .open' ∧
      (applyFailures (mkCircuitBreaker DEFAULT_CIRCUIT_CONFIG 0) (fun i => i * 10)
        (mkCircuitBreaker DEFAULT_CIRCUIT_CONFIG 0).config.failureThreshold).stats.failures
        = (mkCircuitBreaker DEFAULT_CIRCUIT_CONFIG 0).config.failureThreshold ∧
      (applyFailures (mkCircuitBreaker DEFAULT_CIRCUIT_CONFIG 0) (fun i => i * 10)
        (mkCircuitBreaker DEFAULT_CIRCUIT_CONFIG 0).config.failureThreshold).nextAttemptTime
        = (mkCircuitBreaker DEFAULT_CIRCUIT_CONFIG 0).config.failureThreshold * 10
          + (mkCircuitBreaker DEFAULT_CIRCUIT_CONFIG 0).config.resetTimeout)) :=
  ⟨rfl, circuitBreaker_opens_at_threshold (mkCircuitBreaker DEFAULT_CIRCUIT_CONFIG 0)
    (fun i => i * 10) rfl rfl⟩

/-- The breaker as `execute` sees it after the open-state check: an OPEN
breaker has just moved to HALF_OPEN, any other breaker is unchanged.  Its
statistics are those of the original breaker. -/
theorem halfOpenSwitch_stats (cb : CircuitBreaker) :
    (if cb.state = .open' then { cb with state := .halfOpen } else cb).stats
      = cb.stats := by
  split <;> rfl

/-- Counterexample to claim C4 as stated: a breaker that is Closed after
three recorded failures keeps `failureCount = 3` across a successful
`execute` call — the success does not reset the count to 0.  Consequently,
two further failures open the circuit even though a success intervened. -/
theorem closed_success_preserves_failures_cex :
    (onFailure (onFailure (onFailure (mkCircuitBreaker DEFAULT_CIRCUIT_CONFIG 0) 1) 2) 3).state
      = CircuitState.closed ∧
    (onFailure (onFailure (onFailure (mkCircuitBreaker DEFAULT_CIRCUIT_CONFIG 0) 1) 2) 3).stats.failures
      = 3 ∧
    (execute (onFailure (onFailure (onFailure (mkCircuitBreaker DEFAULT_CIRCUIT_CONFIG 0) 1) 2) 3) 4
      (fun _ => (Except.ok () : Except AppError Unit))).2.1.stats.failures = 3 ∧
    (onFailure (onFailure (execute (onFailure (onFailure (onFailure
        (mkCircuitBreaker DEFAULT_CIRCUIT_CONFIG 0) 1) 2) 3) 4
      (fun _ => (Except.ok () : Except AppError Unit))).2.1 5) 6).state
      = CircuitState.open' := by
  decide

/-- Claim C4, amended: a successful call while the breaker is Closed leaves
`failureCount` unchanged (it is not reset); only a successful HALF_OPEN
trial resets `failureCount` to 0, as part of the transition to Closed.
Failures can therefore accumulate to the threshold across intervening
successes. -/
theorem success_resets_failures_only_halfOpen (cb : CircuitBreaker)
    (now : Nat) (v : α) :
    (cb.state = .closed →
      (execute cb now (fun _ => (.ok v : Except AppError α))).2.1.state = .closed ∧
      (execute cb now (fun _ => (.ok v : Except AppError α))).2.1.stats.failures
        = cb.stats.failures) ∧
    (cb.state = .halfOpen →
      (execute cb now (fun _ => (.ok v : Except AppError α))).2.1.state = .closed ∧
      (execute cb now (fun _ => (.ok v : Except AppError α))).2.1.stats.failures = 0) := by
  obtain ⟨st, ⟨f, s, lf, ls⟩, na, cfg⟩ := cb
  constructor
  · intro h
    cases h
    simp [execute, onSuccess]
  · intro h
    cases h
    simp [execute, onSuccess]

/-- Witness for the amended C4, at a Closed breaker carrying three failures
and at a HALF_OPEN breaker. -/
theorem success_resets_failures_only_halfOpen_witness :
    (let cb3 := onFailure (onFailure (onFailure (mkCircuitBreaker DEFAULT_CIRCUIT_CONFIG 0) 1) 2) 3
    (cb3.state = .closed →
      (execute cb3 4 (fun _ => (.ok 7 : Except AppError Nat))).2.1.state = .closed ∧
      (execute cb3 4 (fun _ => (.ok 7 : Except AppError Nat))).2.1.stats.failures
        = cb3.stats.failures) ∧
    (cb3.state = .halfOpen →
      (execute cb3 4 (fun _ => (.ok 7 : Except AppError Nat))).2.1.state = .closed ∧
      (execute cb3 4 (fun _ => (.ok 7 : Except AppError Nat))).2.1.stats.failures = 0)) ∧
    (let cbh : CircuitBreaker :=
      { state := .halfOpen
        stats := { failures := 4, successes := 1, lastFailureTime := 9, lastSuccessTime := 2 }
        nextAttemptTime := 100
        config := DEFAULT_CIRCUIT_CONFIG }
    (cbh.state = .closed →
      (execute cbh 120 (fun _ => (.ok 7 : Except AppError Nat))).2.1.state = .closed ∧
      (execute cbh 120 (fun _ => (.ok 7 : Except AppError Nat))).2.1.stats.failures
        = cbh.stats.failures) ∧
    (cbh.state = .halfOpen →
      (execute cbh 120 (fun _ => (.ok 7 : Except AppError Nat))).2.1.state = .closed ∧
      (execute cbh 120 (fun _ => (.ok 7 : Except AppError Nat))).2.1.stats.failures = 0)) :=
  ⟨success_resets_failures_only_halfOpen _ 4 7, success_resets_failures_only_halfOpen _ 120 7⟩

/-- Claim C8: while the breaker is Open with `now < nextAttemptTime`, every
`execute` call rejects with the circuit-open signal, leaves the breaker
untouched, and never invokes the wrapped operation.  Once
`nextAttemptTime ≤ now`, the call runs as a HALF_OPEN trial: a successful
trial moves to Closed with `failureCount` reset to 0, a failing trial moves
back to Open with `nextAttemptTime = now + resetTimeout`. -/
theorem execute_open_rejects_then_halfOpen_trial (cb : CircuitBreaker)
    (now : Nat) (fn : Unit → Except AppError α) (v : α) (e : AppError)
    (hopen : cb.state = .open') :
    (now < cb.nextAttemptTime →
      execute cb now fn = (.error (.generic openMsg), cb, false)) ∧
    (cb.nextAttemptTime ≤ now →
      execute cb now (fun _ => (.ok v : Except AppError α)) =
        (.ok v,
         { state := .closed
           stats := { failures := 0, successes := cb.stats.successes + 1,
                      lastFailureTime := cb.stats.lastFailureTime, lastSuccessTime := now }
           nextAttemptTime := cb.nextAttemptTime
           config := cb.config }, true) ∧
      execute cb now (fun _ => (.error e : Except AppError α)) =
        (.error e,
         { state := .open'
           stats := { failures := cb.stats.failures + 1, successes := cb.stats.successes,
                      lastFailureTime := now, lastSuccessTime := cb.stats.lastSuccessTime }
           nextAttemptTime := now + cb.config.resetTimeout
           config := cb.config }, true)) := by
  obtain ⟨st, ⟨f, s, lf, ls⟩, na, cfg⟩ := cb
  cases hopen
  constructor
  · intro h
    simp [execute, h]
  · intro h
    have h2 : na ≤ now := h
    have h' : ¬ now < na := by omega
    constructor
    · simp [execute, onSuccess, h']
    · simp [execute, onFailure, h']

/-- Witness for C8 at a concrete Open breaker, exercised once before and
once after `nextAttemptTime`. -/
theorem execute_open_rejects_then_halfOpen_trial_witness :
    (let cbo : CircuitBreaker :=
      { state := .open'
        stats := { failures := 5, successes := 2, lastFailureTime := 40, lastSuccessTime := 3 }
        nextAttemptTime := 100
        config := DEFAULT_CIRCUIT_CONFIG }
    (50 < cbo.nextAttemptTime →
      execute cbo 50 (fun _ => (.ok 9 : Except AppError Nat)) =
        (.error (.generic openMsg), cbo, false)) ∧
    (cbo.nextAttemptTime ≤ 50 →
      execute cbo 50 (fun _ => (.ok 9 : Except AppError Nat)) =
        (.ok 9,
         { state := .closed
           stats := { failures := 0, successes := cbo.stats.successes + 1,
                      lastFailureTime := cbo.stats.lastFailureTime, lastSuccessTime := 50 }
           nextAttemptTime := cbo.nextAttemptTime
           config := cbo.config }, true) ∧
      execute cbo 50 (fun _ => (.error (.llm "down") : Except AppError Nat)) =
        (.error (.llm "down"),
         { state := .open'
           stats := { failures := cbo.stats.failures + 1, successes := cbo.stats.successes,
                      lastFailureTime := 50, lastSuccessTime := cbo.stats.lastSuccessTime }
           nextAttemptTime := 50 + cbo.config.resetTimeout
           config := cbo.config }, true))) ∧
    (let cbo : CircuitBreaker :=
      { state := .open'
        stats := { failures := 5, successes := 2, lastFailureTime := 40, lastSuccessTime := 3 }
        nextAttemptTime := 100
        config := DEFAULT_CIRCUIT_CONFIG }
    (120 < cbo.nextAttemptTime →
      execute cbo 120 (fun _ => (.ok 9 : Except AppError Nat)) =
        (.error (.generic openMsg), cbo, false)) ∧
    (cbo.nextAttemptTime ≤ 120 →
      execute cbo 120 (fun _ => (.ok 9 : Except AppError Nat)) =
        (.ok 9,
         { state := .closed
           stats := { failures := 0, successes := cbo.stats.successes + 1,
                      lastFailureTime := cbo.stats.lastFailureTime, lastSuccessTime := 120 }
           nextAttemptTime := cbo.nextAttemptTime
           config := cbo.config }, true) ∧
      execute cbo 120 (fun _ => (.error (.llm "down") : Except AppError Nat)) =
        (.error (.llm "down"),
         { state := .open'
           stats := { failures := cbo.stats.failures + 1, successes := cbo.stats.successes,
                      lastFailureTime := 120, lastSuccessTime := cbo.stats.lastSuccessTime }
           nextAttemptTime := 120 + cbo.config.resetTimeout
           config := cbo.config }, true))) :=
  ⟨execute_open_rejects_then_halfOpen_trial _ 50 _ 9 (.llm "down") rfl,
   execute_open_rejects_then_halfOpen_trial _ 120 _ 9 (.llm "down") rfl⟩

/-- Claim C10: the whole internal retry sequence counts as one trial toward
the breaker — one `withRetryAndCircuitBreaker` call increases the failure
count by at most 1 however many internal attempts failed — and while the
circuit is Open before `nextAttemptTime` the call rejects without consulting
the wrapped operation at all (the outcome is identical for any two
operations, so zero retry attempts are performed). -/
theorem withRetryAndCircuitBreaker_single_trial (fn : Nat → Except AppError α)
    (cb : CircuitBreaker) (now : Nat) (cfg : RetryConfig) :
    (withRetryAndCircuitBreaker fn cb now cfg).2.1.stats.failures
      ≤ cb.stats.failures + 1 ∧
    (cb.state = .open' → now < cb.nextAttemptTime →
      withRetryAndCircuitBreaker fn cb now cfg = (.error (.generic openMsg), cb, false) ∧
      ∀ gn : Nat → Except AppError α,
        withRetryAndCircuitBreaker fn cb now cfg = withRetryAndCircuitBreaker gn cb now cfg) := by
  constructor
  · unfold withRetryAndCircuitBreaker execute
    split
    · exact Nat.le_succ _
    · rcases h : (withRetry fn cfg).1 with e | v
      · simp only [h]
        rw [(onFailure_failures _ now).1, halfOpenSwitch_stats]
      · simp only [h]
        refine le_trans (onSuccess_failures_le _ now).1 ?_
        rw [halfOpenSwitch_stats]
        exact Nat.le_succ _
  · intro ho hlt
    constructor
    · unfold withRetryAndCircuitBreaker execute
      rw [if_pos ⟨ho, hlt⟩]
    · intro gn
      unfold withRetryAndCircuitBreaker execute
      rw [if_pos ⟨ho, hlt⟩, if_pos ⟨ho, hlt⟩]

/-- Witness for C10: an Open breaker before its reset time, with an
operation that always fails with a retryable error. -/
theorem withRetryAndCircuitBreaker_single_trial_witness :
    (let cbo : CircuitBreaker :=
      { state := .open'
        stats := { failures := 5, successes := 0, lastFailureTime := 40, lastSuccessTime := 0 }
        nextAttemptTime := 100
        config := DEFAULT_CIRCUIT_CONFIG }
    (withRetryAndCircuitBreaker (fun _ => (.error (.llm "down") : Except AppError Nat))
        cbo 60 DEFAULT_RETRY_CONFIG).2.1.stats.failures ≤ cbo.stats.failures + 1 ∧
    (cbo.state = .open' → 60 < cbo.nextAttemptTime →
      withRetryAndCircuitBreaker (fun _ => (.error (.llm "down") : Except AppError Nat))
          cbo 60 DEFAULT_RETRY_CONFIG = (.error (.generic openMsg), cbo, false) ∧
      ∀ gn : Nat → Except AppError Nat,
        withRetryAndCircuitBreaker (fun _ => (.error (.llm "down") : Except AppError Nat))
            cbo 60 DEFAULT_RETRY_CONFIG = withRetryAndCircuitBreaker gn cbo 60 DEFAULT_RETRY_CONFIG)) :=
  withRetryAndCircuitBreaker_single_trial _ _ 60 DEFAULT_RETRY_CONFIG

/-- Models JavaScript `String.prototype.trim`: drop whitespace from both
ends of the string (structurally, so that it evaluates in the kernel). -/
def jsTrim (s : String) : String :=
  String.mk (((s.data.dropWhile Char.isWhitespace).reverse.dropWhile Char.isWhitespace).reverse)

/-- A retrieval result as consumed by `ChatService`: chunk text and
similarity score (scores are modelled as rationals). -/
structure SearchResult where
  text : String
  score : ℚ
deriving Repr, DecidableEq

/-- `ChatResponse` from `chat.service.ts`. -/
structure ChatResponse where
  answer : String
  sourceCount : Nat
deriving Repr, DecidableEq

/-- `maxContextTokens` in `assembleContext`: 3000. -/
def maxContextTokens : Nat := 3000

/-- `maxContextChars = maxContextTokens * 4` (≈ 4 characters per token). -/
def maxContextChars : Nat := maxContextTokens * 4

/-- The string built when a chunk is appended to the running context:
`context ? context + "\n\n" + chunkText : chunkText`. -/
def ctxAppend (context chunkText : String) : String :=
  if context = "" then chunkText else context ++ "\n\n" ++ chunkText

/-- The `for` loop of `assembleContext`: running context and
`includedChunks` counter; empty (trimmed) chunks are skipped, and the loop
breaks at the first chunk whose addition would exceed `maxContextChars`. -/
def assembleLoop : List SearchResult → String → Nat → String × Nat
  | [], context, includedChunks => (context, includedChunks)
  | r :: rest, context, includedChunks =>
    let chunkText := jsTrim r.text
    if chunkText = "" then
      assembleLoop rest context includedChunks
    else
      let newContext := ctxAppend context chunkText
      if maxContextChars < newContext.length then
        (context, includedChunks)
      else
        assembleLoop rest newContext (includedChunks + 1)

/-- `ChatService.assembleContext`: the loop's context, or the placeholder
`"No relevant context found."` when the loop produced an empty context
(the source returns `context || "No relevant context found."`).  The
`includedChunks` counter is computed by the loop but discarded here, exactly
as in the source. -/
def assembleContext (searchResults : List SearchResult) : String :=
  let context := (assembleLoop searchResults "" 0).1
  if context = "" then "No relevant context found." else context

/-- `results.length > 0 ? results[0].score : 0`. -/
def topScore : List SearchResult → ℚ
  | [] => 0
  | r :: _ => r.score

/-- The configured relevance threshold's default, 0.75. -/
def defaultRelevanceThreshold : ℚ := 3 / 4

/-- The external collaborators of `ChatService`: project lookup, embedding
service, vector store similarity search, and the LLM. -/
structure ChatCollaborators where
  getProject : String → Except AppError Unit
  generateEmbedding : String → Except AppError (List ℚ)
  similaritySearch : String → List ℚ → Nat → Except AppError (List SearchResult)
  generateResponse : String → String → Except AppError String

/-- `ChatService.processQuery`.  Besides the result, the model returns how
many times the LLM collaborator was invoked. -/
def processQuery (c : ChatCollaborators) (projectId message : String)
    (relevanceThreshold : ℚ) : Except AppError ChatResponse × Nat :=
  if jsTrim projectId = "" then
    (.error (.validation "Project ID is required"), 0)
  else if jsTrim message = "" then
    (.error (.validation "Message is required"), 0)
  else
    match c.getProject projectId with
    | .error (.notFound _) =>
      (.error (.notFound ("Project \x27" ++ projectId ++ "\x27 not found")), 0)
    | .error e => (.error e, 0)
    | .ok _ =>
      match c.generateEmbedding message with
      | .error _ => (.error (.serviceUnavailable "Unable to process query embedding"), 0)
      | .ok queryEmbedding =>
        match c.similaritySearch projectId queryEmbedding 5 with
        | .error _ => (.error (.serviceUnavailable "Unable to perform similarity search"), 0)
        | .ok searchResults =>
          if topScore searchResults < relevanceThreshold then
            (.ok { answer := "I don\x27t know", sourceCount := 0 }, 0)
          else
            let context := assembleContext searchResults
            let systemPrompt := "You are a helpful assistant that answers questions based ONLY on the provided context.\nIf the answer is not explicitly present in the context, respond exactly: \x22I don\x27t know\x22\nDo not make assumptions or provide information not contained in the context."
            let userPrompt := "Context:\n" ++ context ++ "\n\nQuestion: " ++ message
              ++ "\n\nAnswer the question based only on the context provided above."
            match c.generateResponse systemPrompt userPrompt with
            | .error _ => (.error (.serviceUnavailable "Unable to generate response"), 1)
            | .ok llmResponse =>
              (.ok { answer := llmResponse, sourceCount := searchResults.length }, 1)

/-- Claim C2: whenever the similarity search succeeds but returns no results
or a top score strictly below the relevance threshold (the top score of an
empty result list being 0), `processQuery` answers exactly
`{answer: "I don't know", sourceCount: 0}` without ever invoking the LLM. -/
theorem processQuery_below_threshold_refuses (c : ChatCollaborators)
    (projectId message : String) (thr : ℚ) (emb : List ℚ)
    (results : List SearchResult)
    (hp : jsTrim projectId ≠ "") (hm : jsTrim message ≠ "")
    (hproj : c.getProject projectId = .ok ())
    (hemb : c.generateEmbedding message = .ok emb)
    (hsearch : c.similaritySearch projectId emb 5 = .ok results)
    (hscore : topScore results < thr) :
    processQuery c projectId message thr
      = (.ok { answer := "I don\x27t know", sourceCount := 0 }, 0) := by
  unfold processQuery
  rw [if_neg hp, if_neg hm]
  simp only [hproj, hemb, hsearch, if_pos hscore]

/-- Witness for C2: a project whose store returns no results at all, at the
default threshold 0.75. -/
theorem processQuery_below_threshold_refuses_witness :
    jsTrim "p1" ≠ "" ∧ jsTrim "hello" ≠ "" ∧
    topScore ([] : List SearchResult) < defaultRelevanceThreshold ∧
    processQuery
      { getProject := fun _ => .ok ()
        generateEmbedding := fun _ => .ok [1]
        similaritySearch := fun _ _ _ => .ok []
        generateResponse := fun _ _ => .ok "unused" }
      "p1" "hello" defaultRelevanceThreshold
      = (.ok { answer := "I don\x27t know", sourceCount := 0 }, 0) :=
  ⟨by decide, by decide, by norm_num [topScore, defaultRelevanceThreshold],
   processQuery_below_threshold_refuses _ "p1" "hello" defaultRelevanceThreshold [1] []
     (by decide) (by decide) rfl rfl rfl
     (by norm_num [topScore, defaultRelevanceThreshold])⟩

/-- Data of a string built from a character list. -/
theorem string_data_mk (l : List Char) : (String.mk l).data = l := rfl

/-- Length of a string built from a character list. -/
theorem string_length_mk (l : List Char) : (String.mk l).length = l.length := rfl

/-- A string of nonzero length is not the empty string. -/
theorem string_ne_empty_of_length (s : String) (h : s.length ≠ 0) : s ≠ "" :=
  fun he => h (by rw [he]; rfl)

/-- `jsTrim` fixes a string made of copies of one non-whitespace
character. -/
theorem jsTrim_replicate (n : Nat) (c : Char) (h : c.isWhitespace = false) :
    jsTrim (String.mk (List.replicate n c)) = String.mk (List.replicate n c) := by
  have hrep : List.dropWhile Char.isWhitespace (List.replicate n c)
      = List.replicate n c := by
    cases n with
    | zero => rfl
    | succ m =>
      rw [List.replicate_succ, List.dropWhile_cons]
      simp [h]
  unfold jsTrim
  rw [string_data_mk, hrep, List.reverse_replicate, hrep, List.reverse_replicate]

/-- Appending to the empty running context yields the chunk itself. -/
theorem ctxAppend_empty (t : String) : ctxAppend "" t = t := by
  simp [ctxAppend]

/-- Appending to a non-empty running context inserts the blank-line
separator, adding two characters. -/
theorem ctxAppend_length_of_ne (s t : String) (h : s ≠ "") :
    (ctxAppend s t).length = s.length + 2 + t.length := by
  rw [ctxAppend, if_neg h, String.length_append, String.length_append]
  rfl

/-- A chunk whose trimmed text is empty is skipped by the assembly loop. -/
theorem assembleLoop_cons_skip (r : SearchResult) (rs : List SearchResult)
    (ctx : String) (n : Nat) (h : jsTrim r.text = "") :
    assembleLoop (r :: rs) ctx n = assembleLoop rs ctx n := by
  simp [assembleLoop, h]

/-- The assembly loop stops entirely — discarding every remaining result —
at the first non-empty chunk whose addition would push the context past
`maxContextChars`. -/
theorem assembleLoop_cons_stop (r : SearchResult) (rs : List SearchResult)
    (ctx : String) (n : Nat) (h : jsTrim r.text ≠ "")
    (h2 : maxContextChars < (ctxAppend ctx (jsTrim r.text)).length) :
    assembleLoop (r :: rs) ctx n = (ctx, n) := by
  simp [assembleLoop, h, h2]

/-- A fitting non-empty chunk is appended and counted. -/
theorem assembleLoop_cons_take (r : SearchResult) (rs : List SearchResult)
    (ctx : String) (n : Nat) (h : jsTrim r.text ≠ "")
    (h2 : ¬ maxContextChars < (ctxAppend ctx (jsTrim r.text)).length) :
    assembleLoop (r :: rs) ctx n
      = assembleLoop rs (ctxAppend ctx (jsTrim r.text)) (n + 1) := by
  simp [assembleLoop, h, h2]

/-- The assembled context never exceeds the character budget. -/
theorem assembleLoop_length_le (results : List SearchResult) :
    ∀ ctx n, ctx.length ≤ maxContextChars →
      ((assembleLoop results ctx n).1).length ≤ maxContextChars := by
  induction results with
  | nil => intro ctx n h; exact h
  | cons r rs ih =>
    intro ctx n h
    by_cases h1 : jsTrim r.text = ""
    · rw [assembleLoop_cons_skip _ _ _ _ h1]
      exact ih ctx n h
    · by_cases h2 : maxContextChars < (ctxAppend ctx (jsTrim r.text)).length
      · rw [assembleLoop_cons_stop _ _ _ _ h1 h2]
        exact h
      · rw [assembleLoop_cons_take _ _ _ _ h1 h2]
        exact ih _ _ (by omega)

/-- Claim C6, amended: the assembly loop walks the ranked results in order,
skipping chunks whose trimmed text is empty; it stops entirely — dropping
all remaining results — before appending a chunk that would push the
context past the `maxContextChars` budget, so the context never exceeds the
budget; and when not even the first non-empty chunk fits within the whole
budget the loop includes zero chunks, whereupon `assembleContext` returns
the fixed placeholder string `"No relevant context found."` rather than an
empty string. -/
theorem assembleContext_budget (results : List SearchResult)
    (r : SearchResult) (rs : List SearchResult) (ctx : String) (n : Nat) :
    ((assembleLoop results "" 0).1).length ≤ maxContextChars ∧
    (jsTrim r.text = "" → assembleLoop (r :: rs) ctx n = assembleLoop rs ctx n) ∧
    (jsTrim r.text ≠ "" →
      maxContextChars < (ctxAppend ctx (jsTrim r.text)).length →
      assembleLoop (r :: rs) ctx n = (ctx, n)) ∧
    (jsTrim r.text ≠ "" → maxContextChars < (jsTrim r.text).length →
      assembleLoop (r :: rs) "" 0 = ("", 0) ∧
      assembleContext (r :: rs) = "No relevant context found.") := by
  refine ⟨assembleLoop_length_le results "" 0 (by decide),
          assembleLoop_cons_skip r rs ctx n,
          assembleLoop_cons_stop r rs ctx n, ?_⟩
  intro h1 h2
  have hstop : assembleLoop (r :: rs) "" 0 = ("", 0) :=
    assembleLoop_cons_stop r rs "" 0 h1 (by rw [ctxAppend_empty]; exact h2)
  refine ⟨hstop, ?_⟩
  rw [assembleContext, hstop]
  rfl

/-- The oversized chunk used in the C6 counterexample: 12001 characters,
one more than the 12000-character budget. -/
def chunkBig : String := String.mk (List.replicate 12001 'b')

/-- Counterexample to claim C6 as stated: for a single retrieved chunk of
12001 characters (exceeding the whole 12000-character budget), the loop
indeed includes zero chunks, but `assembleContext` returns the placeholder
string `"No relevant context found."`, not an empty context string. -/
theorem assembleContext_oversized_placeholder_cex :
    assembleLoop [{ text := chunkBig, score := 4 / 5 }] "" 0 = ("", 0) ∧
    assembleContext [{ text := chunkBig, score := 4 / 5 }]
      = "No relevant context found." ∧
    assembleContext [{ text := chunkBig, score := 4 / 5 }] ≠ "" := by
  have htrim : jsTrim chunkBig = chunkBig := jsTrim_replicate 12001 'b' (by decide)
  have hlen : chunkBig.length = 12001 := by
    rw [chunkBig, string_length_mk, List.length_replicate]
  have h1 : jsTrim ({ text := chunkBig, score := 4 / 5 } : SearchResult).text ≠ "" := by
    rw [htrim]
    exact string_ne_empty_of_length _ (by rw [hlen]; decide)
  have h2 : maxContextChars
      < (jsTrim ({ text := chunkBig, score := 4 / 5 } : SearchResult).text).length := by
    rw [htrim, hlen]
    decide
  obtain ⟨hstop, hctx⟩ :=
    (assembleContext_budget [] { text := chunkBig, score := 4 / 5 } [] "" 0).2.2.2 h1 h2
  exact ⟨hstop, hctx, by rw [hctx]; decide⟩

/-- Witness for the amended C6, at the oversized single-chunk input. -/
theorem assembleContext_budget_witness :
    ((assembleLoop [{ text := chunkBig, score := 4 / 5 }] "" 0).1).length ≤ maxContextChars ∧
    (jsTrim ({ text := chunkBig, score := 4 / 5 } : SearchResult).text = "" →
      assembleLoop [{ text := chunkBig, score := 4 / 5 }] "x" 0 = assembleLoop [] "x" 0) ∧
    (jsTrim ({ text := chunkBig, score := 4 / 5 } : SearchResult).text ≠ "" →
      maxContextChars
        < (ctxAppend "x" (jsTrim ({ text := chunkBig, score := 4 / 5 } : SearchResult).text)).length →
      assembleLoop [{ text := chunkBig, score := 4 / 5 }] "x" 0 = ("x", 0)) ∧
    (jsTrim ({ text := chunkBig, score := 4 / 5 } : SearchResult).text ≠ "" →
      maxContextChars < (jsTrim ({ text := chunkBig, score := 4 / 5 } : SearchResult).text).length →
      assembleLoop [{ text := chunkBig, score := 4 / 5 }] "" 0 = ("", 0) ∧
      assembleContext [{ text := chunkBig, score := 4 / 5 }] = "No relevant context found.") :=
  assembleContext_budget [{ text := chunkBig, score := 4 / 5 }]
    { text := chunkBig, score := 4 / 5 } [] "x" 0

/-- A 5000-character chunk used in the C1 failing input. -/
def chunk5000 : String := String.mk (List.replicate 5000 'a')

/-- The C1 failing input: three retrieved 5000-character chunks, each with
score 0.8, above the default 0.75 threshold.  Their cumulative assembled
length (5000 + 2 + 5000 + 2 + 5000 = 15004) exceeds the 12000-character
budget, so assembly truncates after the second chunk. -/
def cex1Results : List SearchResult :=
  [{ text := chunk5000, score := 4 / 5 },
   { text := chunk5000, score := 4 / 5 },
   { text := chunk5000, score := 4 / 5 }]

/-- Collaborators realizing the C1 failing input. -/
def cex1Collabs : ChatCollaborators :=
  { getProject := fun _ => .ok ()
    generateEmbedding := fun _ => .ok [1]
    similaritySearch := fun _ _ _ => .ok cex1Results
    generateResponse := fun _ _ => .ok "answer" }

/-- Claim C1 (code bug, evaluated at the failing input): context assembly
stops after including 2 of the 3 retrieved chunks for budget reasons, yet
`processQuery` reports `sourceCount = 3` — `searchResults.length`, the raw
retrieval count.  The loop's `includedChunks` counter (2 here) is computed
and then discarded by `assembleContext`, so the post-truncation inclusion
count never reaches the response. -/
theorem sourceCount_is_raw_retrieval_count :
    (assembleLoop cex1Results "" 0).2 = 2 ∧
    cex1Results.length = 3 ∧
    processQuery cex1Collabs "p1" "question" defaultRelevanceThreshold
      = (.ok { answer := "answer", sourceCount := 3 }, 1) := by
  have htrim : jsTrim chunk5000 = chunk5000 := jsTrim_replicate 5000 'a' (by decide)
  have hlen : chunk5000.length = 5000 := by
    rw [chunk5000, string_length_mk, List.length_replicate]
  have hne : chunk5000 ≠ "" :=
    string_ne_empty_of_length _ (by rw [hlen]; decide)
  have e1 : ctxAppend "" (jsTrim chunk5000) = chunk5000 := by
    rw [htrim, ctxAppend_empty]
  have l2 : (ctxAppend chunk5000 (jsTrim chunk5000)).length = 10002 := by
    rw [htrim, ctxAppend_length_of_ne _ _ hne, hlen]
  have hne2 : ctxAppend chunk5000 (jsTrim chunk5000) ≠ "" :=
    string_ne_empty_of_length _ (by rw [l2]; decide)
  have l3 : (ctxAppend (ctxAppend chunk5000 (jsTrim chunk5000)) (jsTrim chunk5000)).length
      = 15004 := by
    rw [ctxAppend_length_of_ne _ _ hne2, l2, htrim, hlen]
  have hloop : assembleLoop cex1Results "" 0
      = (ctxAppend chunk5000 (jsTrim chunk5000), 2) := by
    rw [cex1Results]
    rw [assembleLoop_cons_take _ _ _ _ (by rw [htrim]; exact hne)
      (by rw [e1, hlen]; decide)]
    rw [e1]
    rw [assembleLoop_cons_take _ _ _ _ (by rw [htrim]; exact hne)
      (by rw [l2]; decide)]
    rw [assembleLoop_cons_stop _ _ _ _ (by rw [htrim]; exact hne)
      (by rw [l3]; decide)]
  refine ⟨by rw [hloop], rfl, ?_⟩
  unfold processQuery
  rw [if_neg (by decide), if_neg (by decide)]
  show (match cex1Collabs.getProject "p1" with
    | _ => _) = _
  simp only [cex1Collabs]
  rw [if_neg (by norm_num [cex1Results, topScore, defaultRelevanceThreshold])]
  rfl

/-- `DocumentStatus` from `document.service.ts`: pending, processing,
ready, failed. -/
inductive DocumentStatus where
  | pending
  | processing
  | ready
  | failed
deriving Repr, DecidableEq

/-- Document source kinds: pdf, docx, txt, url. -/
inductive FileType where
  | pdf
  | docx
  | txt
  | url
deriving Repr, DecidableEq

/-- Chunk metadata: owning document, filename, zero-based chunk index. -/
structure ChunkMetadata where
  documentId : String
  filename : String
  chunkIndex : Nat
deriving Repr, DecidableEq

/-- A text chunk with its metadata. -/
structure Chunk where
  text : String
  metadata : ChunkMetadata
deriving Repr, DecidableEq

/-- The persisted document row (the fields `processDocument` reads and
writes). -/
structure DocRecord where
  id : String
  projectId : String
  filename : String
  fileType : FileType
  status : DocumentStatus
  errorMessage : Option String
deriving Repr, DecidableEq

/-- The external collaborators of `DocumentService.processDocument`:
text extractors, text chunker, embedding model and the ChromaDB client.
File buffers are byte lists. -/
structure DocCollaborators where
  extractFromUrl : String → Except AppError String
  extractFromPdf : List Nat → Except AppError String
  extractFromDocx : List Nat → Except AppError String
  extractFromTxt : List Nat → Except AppError String
  chunkText : String → String → String → Except AppError (List Chunk)
  embedDocuments : List String → Except AppError (List (List ℚ))
  getCollection : String → Except AppError Unit
  createCollection : String → Except AppError Unit
  collectionAdd : String → List String → List (List ℚ) → List String →
    List ChunkMetadata → Except AppError Unit

/-- Step 1 of `processDocument`: extract text according to the document's
file type.  A URL document extracts from its filename field; file documents
require the file buffer (`ValidationError` otherwise, raised inside the
extraction `try` block) and dispatch on the file type. -/
def extractText (c : DocCollaborators) (document : DocRecord)
    (fileBuffer : Option (List Nat)) : Except AppError String :=
  match document.fileType with
  | .url => c.extractFromUrl document.filename
  | ft =>
    match fileBuffer with
    | none => .error (.validation "File buffer is required for file documents")
    | some buf =>
      match ft with
      | .pdf => c.extractFromPdf buf
      | .docx => c.extractFromDocx buf
      | .txt => c.extractFromTxt buf
      | .url => c.extractFromUrl document.filename

/-- Step 4 of `processDocument`: get or create the project's collection,
then add ids (`documentId_i`), embeddings, chunk texts and metadata. -/
def storeVectors (c : DocCollaborators) (documentId : String)
    (document : DocRecord) (chunks : List Chunk)
    (embeddings : List (List ℚ)) : Except AppError Unit :=
  let collectionName := "project_" ++ document.projectId
  let collection : Except AppError Unit :=
    match c.getCollection collectionName with
    | .ok u => .ok u
    | .error _ => c.createCollection collectionName
  match collection with
  | .error e => .error e
  | .ok _ =>
    c.collectionAdd collectionName
      (chunks.enum.map (fun p => documentId ++ "_" ++ toString p.1))
      embeddings
      (chunks.map (fun ch => ch.text))
      (chunks.map (fun ch => ch.metadata))

/-- `DocumentService.processDocument`.  The metadata store is modelled by
the document's row: the input is the row found by the initial lookup
(`none` when absent), and the output carries the final row together with
the list of persisted status updates, in order.  Status updates themselves
are modelled as infallible.  Mirrors the source's error handling: every
stage failure persists one `failed` status and is then re-thrown (the
storage stage wraps the cause in a `VectorStoreError`); the chunking call
has no stage-level handler, so its errors reach the outer handler, which
persists `failed` with the generic `Processing failed` message; the
zero-chunks case persists `failed` and returns normally. -/
def processDocument (c : DocCollaborators) (documentId : String)
    (db : Option DocRecord) (fileBuffer : Option (List Nat)) :
    Except AppError Unit × Option DocRecord × List DocumentStatus :=
  match db with
  | none =>
    (.error (.notFound ("Document with id " ++ documentId ++ " not found")), none, [])
  | some document =>
    let doc1 : DocRecord := { document with status := .processing }
    match extractText c document fileBuffer with
    | .error e =>
      (.error e,
       some { doc1 with
                status := .failed
                errorMessage := some ("Text extraction failed: " ++ e.message) },
       [.processing, .failed])
    | .ok extractedText =>
      match c.chunkText extractedText document.id document.filename with
      | .error e =>
        (.error e,
         some { doc1 with
                  status := .failed
                  errorMessage := some ("Processing failed: " ++ e.message) },
         [.processing, .failed])
      | .ok chunks =>
        if chunks.length = 0 then
          (.ok (),
           some { doc1 with
                    status := .failed
                    errorMessage := some "No text chunks generated from document" },
           [.processing, .failed])
        else
          match c.embedDocuments (chunks.map (fun ch => ch.text)) with
          | .error e =>
            (.error e,
             some { doc1 with
                      status := .failed
                      errorMessage := some ("Embedding generation failed: " ++ e.message) },
             [.processing, .failed])
          | .ok embeddings =>
            match storeVectors c documentId document chunks embeddings with
            | .error e =>
              (.error (.vectorStore ("Failed to store vectors: " ++ e.message)),
               some { doc1 with
                        status := .failed
                        errorMessage := some ("Vector storage failed: " ++ e.message) },
               [.processing, .failed])
            | .ok _ =>
              (.ok (), some { doc1 with status := .ready }, [.processing, .ready])

/-- Claim C3, amended: within one `processDocument` run on an existing
document the persisted statuses are exactly Processing followed by one
terminal status (Ready or Failed) — but this holds regardless of the
document's prior status, because `processDocument` never inspects it:
invoking it again on a Ready or Failed document resets the row to
Processing and may end in either terminal state. -/
theorem processDocument_status_trace (c : DocCollaborators)
    (documentId : String) (doc : DocRecord) (buf : Option (List Nat)) :
    (processDocument c documentId (some doc) buf).2.2
      = [.processing, .ready] ∨
    (processDocument c documentId (some doc) buf).2.2
      = [.processing, .failed] := by
  cases hE : extractText c doc buf with
  | error e => right; simp [processDocument, hE]
  | ok t =>
    cases hC : c.chunkText t doc.id doc.filename with
    | error e => right; simp [processDocument, hE, hC]
    | ok chunks =>
      by_cases hz : chunks.length = 0
      · right; simp [processDocument, hE, hC, hz]
      · cases hB : c.embedDocuments (chunks.map (fun ch => ch.text)) with
        | error e => right; simp [processDocument, hE, hC, hz, hB]
        | ok embeddings =>
          cases hS : storeVectors c documentId doc chunks embeddings with
          | error e => right; simp [processDocument, hE, hC, hz, hB, hS]
          | ok u => left; simp [processDocument, hE, hC, hz, hB, hS]

/-- A document row already in the Ready state. -/
def cexDocReady : DocRecord :=
  { id := "d1", projectId := "pr1", filename := "notes.txt", fileType := .txt,
    status := .ready, errorMessage := none }

/-- Collaborators whose text extractors always fail. -/
def cexDocCollabs : DocCollaborators :=
  { extractFromUrl := fun _ => .error (.generic "boom")
    extractFromPdf := fun _ => .error (.generic "boom")
    extractFromDocx := fun _ => .error (.generic "boom")
    extractFromTxt := fun _ => .error (.generic "boom")
    chunkText := fun _ _ _ => .ok []
    embedDocuments := fun _ => .ok []
    getCollection := fun _ => .ok ()
    createCollection := fun _ => .ok ()
    collectionAdd := fun _ _ _ _ _ => .ok () }

/-- Counterexample to claim C3 as stated: calling `processDocument` again
on a document whose persisted status is already Ready moves it out of
Ready — here to Processing and then, the extractor failing, to Failed. -/
theorem ready_document_reprocessed_cex :
    cexDocReady.status = DocumentStatus.ready ∧
    (processDocument cexDocCollabs "d1" (some cexDocReady) (some [])).2.2
      = [DocumentStatus.processing, DocumentStatus.failed] ∧
    (processDocument cexDocCollabs "d1" (some cexDocReady) (some [])).2.1
      = some { cexDocReady with
                 status := .failed
                 errorMessage := some "Text extraction failed: boom" } := by
  decide

/-- A freshly uploaded document row (Pending). -/
def cexDocPending : DocRecord :=
  { id := "d2", projectId := "pr1", filename := "report.pdf", fileType := .pdf,
    status := .pending, errorMessage := none }

/-- Counterexample to claim C5 as stated: an extraction failure does
persist exactly one Failed transition with a stage-identifying message, but
the error is then re-thrown past the pipeline boundary — `processDocument`
propagates the extractor's error (a generic error, not NotFound) to its
caller. -/
theorem stage_error_rethrown_cex :
    (processDocument cexDocCollabs "d2" (some cexDocPending) (some [])).1
      = .error (.generic "boom") ∧
    (processDocument cexDocCollabs "d2" (some cexDocPending) (some [])).2.1
      = some { cexDocPending with
                 status := .failed
                 errorMessage := some "Text extraction failed: boom" } :=
  ⟨rfl, rfl⟩

/-- Claim C5, amended: a missing document record yields NotFound and the
pipeline does not run; an extraction, embedding, or storage failure is
caught at its stage and persisted as exactly one Failed transition whose
message names the failing stage, after which the error is re-thrown to the
caller (the storage stage re-throws it wrapped in a `VectorStoreError`);
an error thrown by the chunker is caught only by the outer handler, which
persists one Failed transition with the generic `Processing failed`
message and re-throws. -/
theorem processDocument_failure_semantics (c : DocCollaborators)
    (documentId : String) (doc : DocRecord) (buf : Option (List Nat))
    (e : AppError) (t : String) (chunks : List Chunk)
    (embeddings : List (List ℚ)) :
    (processDocument c documentId none buf
      = (.error (.notFound ("Document with id " ++ documentId ++ " not found")),
         none, [])) ∧
    (extractText c doc buf = .error e →
      processDocument c documentId (some doc) buf
        = (.error e,
           some { doc with
                    status := .failed
                    errorMessage := some ("Text extraction failed: " ++ e.message) },
           [.processing, .failed])) ∧
    (extractText c doc buf = .ok t →
      c.chunkText t doc.id doc.filename = .error e →
      processDocument c documentId (some doc) buf
        = (.error e,
           some { doc with
                    status := .failed
                    errorMessage := some ("Processing failed: " ++ e.message) },
           [.processing, .failed])) ∧
    (extractText c doc buf = .ok t →
      c.chunkText t doc.id doc.filename = .ok chunks →
      chunks.length ≠ 0 →
      c.embedDocuments (chunks.map (fun ch => ch.text)) = .error e →
      processDocument c documentId (some doc) buf
        = (.error e,
           some { doc with
                    status := .failed
                    errorMessage := some ("Embedding generation failed: " ++ e.message) },
           [.processing, .failed])) ∧
    (extractText c doc buf = .ok t →
      c.chunkText t doc.id doc.filename = .ok chunks →
      chunks.length ≠ 0 →
      c.embedDocuments (chunks.map (fun ch => ch.text)) = .ok embeddings →
      storeVectors c documentId doc chunks embeddings = .error e →
      processDocument c documentId (some doc) buf
        = (.error (.vectorStore ("Failed to store vectors: " ++ e.message)),
           some { doc with
                    status := .failed
                    errorMessage := some ("Vector storage failed: " ++ e.message) },
           [.processing, .failed])) := by
  refine ⟨rfl, ?_, ?_, ?_, ?_⟩
  · intro hE
    simp [processDocument, hE]
  · intro hE hC
    simp [processDocument, hE, hC]
  · intro hE hC hz hB
    simp [processDocument, hE, hC, hz, hB]
  · intro hE hC hz hB hS
    simp [processDocument, hE, hC, hz, hB, hS]

/-- Witness for the amended C5, at the failing extractor collaborators and
a pending pdf document. -/
theorem processDocument_failure_semantics_witness :
    extractText cexDocCollabs cexDocPending (some []) = .error (.generic "boom") ∧
    processDocument cexDocCollabs "d2" (some cexDocPending) (some [])
      = (.error (.generic "boom"),
         some { cexDocPending with
                  status := .failed
                  errorMessage := some ("Text extraction failed: "
                    ++ (AppError.generic "boom").message) },
         [.processing, .failed]) ∧
    processDocument cexDocCollabs "d2" none (some [])
      = (.error (.notFound ("Document with id " ++ "d2" ++ " not found")),
         none, []) :=
  ⟨rfl,
   (processDocument_failure_semantics cexDocCollabs "d2" cexDocPending (some [])
     (.generic "boom") "" [] []).2.1 rfl,
   (processDocument_failure_semantics cexDocCollabs "d2" cexDocPending (some [])
     (.generic "boom") "" [] []).1⟩

end ChatRemix







